import Mathlib

/-!
Verification development for the engine-communication core of the
Chess_Analyzer repository (src/Chess_Analyzer_GUI.py).

The Python program runs a background worker (`_async_engine_handler`) that
drains a request queue, owns at most one child UCI engine process via the
mutable attribute `self.engine`, and pushes one result per non-quit request
onto a result queue.  We embed that worker as a step function on an explicit
state, with the external effects of `chess.engine` (spawning a process,
pinging it, running an analysis) supplied by an environment oracle, and the
observable process interactions recorded as an action trace.
-/

namespace ChessAnalyzer

/-- The side to move, `chess.WHITE` / `chess.BLACK`. -/
inductive Side
  | white
  | black
deriving DecidableEq, Inhabited, Repr

/-- A chess move as handled by the program: only its `uci()` rendering is
ever consumed (`pv[0].uci()` in the worker). -/
structure Move where
  uci : String
deriving DecidableEq, Inhabited, Repr

/-- A board value (`chess.Board`).  The worker only reads `.turn` from it;
the placement component keeps distinct positions distinguishable, which is
what the snapshot/aliasing claims are about. -/
structure Board where
  placement : String
  turn : Side
deriving DecidableEq, Inhabited, Repr

/-- An engine score relative to some side: `chess.engine.Cp(v)` or
`chess.engine.Mate(m)`. -/
inductive RelScore
  | cp (value : Int)
  | mate (moves : Int)
deriving DecidableEq, Inhabited, Repr

/-- Negation of a relative score (`-score` in python-chess): used when a
point-of-view switch flips the perspective. -/
def RelScore.neg : RelScore → RelScore
  | RelScore.cp v => RelScore.cp (-v)
  | RelScore.mate m => RelScore.mate (-m)

/-- `Score.is_mate()`. -/
def RelScore.isMate : RelScore → Bool
  | RelScore.mate _ => true
  | RelScore.cp _ => false

/-- `Score.mate()`: the signed mate distance, `None` for a centipawn score. -/
def RelScore.mateMoves : RelScore → Option Int
  | RelScore.mate m => some m
  | RelScore.cp _ => none

/-- `Score.score(mate_score=n)`: centipawns, with mates mapped onto the
large sentinel `n` (python-chess returns `n - m` for a winning mate in `m`
and `-n - m` for a losing one). -/
def RelScore.scoreValue (s : RelScore) (mateScore : Int) : Int :=
  match s with
  | RelScore.cp v => v
  | RelScore.mate m => if m > 0 then mateScore - m else -mateScore - m

/-- `chess.engine.PovScore`: a relative score together with the side from
whose point of view it is expressed.  The score in an `analyse` info
dictionary is relative to the side to move of the analysed board. -/
structure PovScore where
  relative : RelScore
  turn : Side
deriving DecidableEq, Inhabited, Repr

/-- `PovScore.pov(color)`: the relative score seen from `color`. -/
def PovScore.pov (s : PovScore) (color : Side) : RelScore :=
  if color = s.turn then s.relative else s.relative.neg

/-- The part of the `analyse` info dictionary the worker reads:
`info.get("pv")` and `info.get("score")`, either of which may be missing. -/
structure AnalysisInfo where
  pv : Option (List Move)
  score : Option PovScore
deriving DecidableEq, Inhabited, Repr

/-- The dictionary the worker puts on the result queue for a completed
analysis: keys "move", "score", "turn".  `turn` is modelled as an `Option`
because the GUI reads it back with a default (`result.get("turn", ...)`). -/
structure AnalysisResult where
  move : String
  score : Option PovScore
  turn : Option Side
deriving DecidableEq, Inhabited, Repr

/-- A request on `self.request_queue`: `("connect", path)`,
`("analyze", (board_copy, time_limit))` or `("quit", None)`. -/
inductive Req
  | connect (path : String)
  | analyze (snapshot : Board) (timeLimit : Rat)
  | quit
deriving DecidableEq, Inhabited, Repr

/-- A message on `self.result_queue`: `("connect_success", None)`,
`("connect_fail", str(e))`, `("analysis_result", dict)` or
`("error", message)`. -/
inductive Res
  | connect_success
  | connect_fail (reason : String)
  | analysis_result (result : AnalysisResult)
  | error (message : String)
deriving DecidableEq, Inhabited, Repr

/-- Observable interactions of the worker with child engine processes.
`spawn pid` records a process successfully created by
`chess.engine.popen_uci`; `quitAttempt pid` records a call to
`engine.quit()` whose exceptions, if any, are caught and discarded;
`analyseCall` records an `engine.analyse(board, Limit(time=t))` exchange. -/
inductive Act
  | spawn (pid : Nat)
  | quitAttempt (pid : Nat)
  | analyseCall (pid : Nat) (snapshot : Board) (timeLimit : Rat)
deriving DecidableEq, Inhabited, Repr

/-- Outcome of one `popen_uci` + `ping` connection attempt.
`failBeforeSpawn` models `popen_uci` itself raising (no process exists);
`failAfterSpawn` models `popen_uci` succeeding and the subsequent `ping`
raising (the process was created, then the handshake failed). -/
inductive ConnectOutcome
  | ok
  | failBeforeSpawn (message : String)
  | failAfterSpawn (message : String)
deriving DecidableEq, Inhabited, Repr

/-- Outcome of one `engine.analyse` exchange: an info dictionary, or an
exception rendered as a string. -/
inductive AnalyseOutcome
  | ok (info : AnalysisInfo)
  | err (message : String)
deriving DecidableEq, Inhabited, Repr

/-- Environment oracle for the external `chess.engine` effects.  Connection
attempts are keyed by the fresh process id they would create and the path;
analyse exchanges are keyed by a running count of analyse calls. -/
structure Env where
  connectOutcome : Nat → String → ConnectOutcome
  analyseOutcome : Nat → AnalyseOutcome

/-- Worker state: `engine` is the mutable `self.engine` attribute (the
engine handle, holding the pid of the owned child process, or `none`);
`nextPid` is a freshness counter for processes the model would create;
`anaCount` counts analyse calls, indexing the environment oracle. -/
structure WState where
  engine : Option Nat
  nextPid : Nat
  anaCount : Nat
deriving DecidableEq, Inhabited, Repr

/-- Lines 538-543 of the worker: if `self.engine` is set, call
`await self.engine.quit()` inside try/except-pass, then assign
`self.engine = None`.  Returns the state after clearing together with the
trace of the quit attempt. -/
def quitExisting (s : WState) : WState × List Act :=
  match s.engine with
  | some pid => ({ s with engine := none }, [Act.quitAttempt pid])
  | none => (s, [])

/-- Lines 545-551 of the worker: `popen_uci` then `ping` inside try/except;
on success assign the new handle and report `connect_success`, on any
exception assign `self.engine = None` and report `connect_fail str(e)`. -/
def launchEngine (env : Env) (s : WState) (path : String) : WState × List Act × Res :=
  match env.connectOutcome s.nextPid path with
  | ConnectOutcome.ok =>
      ({ s with engine := some s.nextPid, nextPid := s.nextPid + 1 },
       [Act.spawn s.nextPid], Res.connect_success)
  | ConnectOutcome.failBeforeSpawn msg =>
      ({ s with engine := none, nextPid := s.nextPid + 1 },
       [], Res.connect_fail msg)
  | ConnectOutcome.failAfterSpawn msg =>
      ({ s with engine := none, nextPid := s.nextPid + 1 },
       [Act.spawn s.nextPid], Res.connect_fail msg)

/-- The whole "connect" branch of the worker (lines 536-551): terminate and
clear any existing handle first, then launch and handshake the new one. -/
def handleConnect (env : Env) (s : WState) (path : String) : WState × List Act × Res :=
  let cleared := quitExisting s
  let launched := launchEngine env cleared.1 path
  (launched.1, cleared.2 ++ launched.2.1, launched.2.2)

/-- Lines 560-567 of the worker: build the analysis-result dictionary.
`pv = info.get("pv") or []` and the move is `pv[0].uci()` when the line is
non-empty, the "N/A" sentinel otherwise; the snapshot side to move is
stored under "turn". -/
def extractResult (info : AnalysisInfo) (snapshot : Board) : AnalysisResult :=
  let pvLine := info.pv.getD []
  { move :=
      match pvLine with
      | [] => "N/A"
      | m :: _ => m.uci
    score := info.score
    turn := some snapshot.turn }

/-- The "analyze" branch of the worker (lines 553-569): reject with an
error message when no handle is live, otherwise run the analyse exchange
and report either the extracted result or `Analysis failed: str(e)`.
The handle is left untouched in every case. -/
def handleAnalyze (env : Env) (s : WState) (snapshot : Board) (timeLimit : Rat) :
    WState × List Act × Res :=
  match s.engine with
  | none => (s, [], Res.error "Engine is not connected.")
  | some pid =>
      match env.analyseOutcome s.anaCount with
      | AnalyseOutcome.ok info =>
          ({ s with anaCount := s.anaCount + 1 },
           [Act.analyseCall pid snapshot timeLimit],
           Res.analysis_result (extractResult info snapshot))
      | AnalyseOutcome.err msg =>
          ({ s with anaCount := s.anaCount + 1 },
           [Act.analyseCall pid snapshot timeLimit],
           Res.error ("Analysis failed: " ++ msg))

/-- The worker loop `_async_engine_handler` run over a sequence of dequeued
requests: the single consumer processes them in order, accumulating the
action trace and the result-queue contents.  A "quit" request performs the
best-effort quit of any live handle and breaks out of the loop, so requests
after it are never processed (the `queue.Empty` continue branch has no
observable effect and is not represented). -/
def run (env : Env) : WState → List Req → WState × List Act × List Res
  | s, [] => (s, [], [])
  | s, Req.quit :: _ =>
      match s.engine with
      | some pid => (s, [Act.quitAttempt pid], [])
      | none => (s, [], [])
  | s, Req.connect path :: rest =>
      let step := handleConnect env s path
      let tail := run env step.1 rest
      (tail.1, step.2.1 ++ tail.2.1, step.2.2 :: tail.2.2)
  | s, Req.analyze snap t :: rest =>
      let step := handleAnalyze env s snap t
      let tail := run env step.1 rest
      (tail.1, step.2.1 ++ tail.2.1, step.2.2 :: tail.2.2)

/-- The file-system facts `_resolve_engine_path` consults: `os.path.isfile`,
`os.access(path, os.X_OK)`, `shutil.which` and `os.path.abspath`. -/
structure FileSystem where
  isFile : String → Bool
  isExecutable : String → Bool
  which : String → Option String
  abspath : String → String

/-- `_resolve_engine_path` (lines 223-236): empty input resolves to nothing;
an existing file resolves to its absolute path when executable and to
nothing otherwise; anything else is looked up as a bare command on the
search path and accepted only if the hit is an executable file. -/
def resolve_engine_path (fs : FileSystem) (userValue : String) : Option String :=
  if userValue = "" then none
  else if fs.isFile userValue then
    if fs.isExecutable userValue then some (fs.abspath userValue) else none
  else
    match fs.which userValue with
    | some resolved =>
        if fs.isFile resolved && fs.isExecutable resolved then some resolved
        else none
    | none => none

/-- What a click on the connect button produces: an error dialog (and no
request), or a "connect" request enqueued for the worker. -/
inductive ConnectClick
  | errorDialog (message : String)
  | enqueue (request : Req)
deriving DecidableEq, Inhabited, Repr

/-- `_connect_to_stockfish` (lines 623-637): strip the entry text, resolve
it, and either show the invalid-executable dialog without enqueuing
anything, or enqueue `("connect", resolved)`. -/
def connect_to_stockfish (fs : FileSystem) (userValue : String) : ConnectClick :=
  match resolve_engine_path fs userValue.trim with
  | none => ConnectClick.errorDialog "Invalid Stockfish executable."
  | some resolved => ConnectClick.enqueue (Req.connect resolved)

/-- Read a heap cell (a Python object reference dereference). -/
def readCell (heap : List Board) (ref : Nat) : Board :=
  heap.getD ref default

/-- Overwrite a heap cell (an in-place mutation of the referenced object). -/
def writeCell (heap : List Board) (ref : Nat) (b : Board) : List Board :=
  heap.set ref b

/-- An entry the GUI puts on the request queue for an analysis: a reference
to the snapshot object and the time limit. -/
structure QueuedAnalyze where
  snapRef : Nat
  timeLimit : Rat
deriving DecidableEq, Inhabited, Repr

/-- The GUI-side state relevant to snapshot capture: a heap of board
objects, the reference held by the mutable live board `self.board`, and the
pending request queue. -/
structure AppState where
  heap : List Board
  boardRef : Nat
  requestQueue : List QueuedAnalyze
deriving DecidableEq, Inhabited, Repr

/-- `_start_analysis` (lines 639-645): `self.board.copy()` allocates a
fresh object holding the live board's current value, and
`("analyze", (copy, 2.0))` is enqueued — the time budget is the literal
`2.0`, with no way for the caller to pass a different one. -/
def start_analysis (s : AppState) : AppState :=
  { heap := s.heap ++ [readCell s.heap s.boardRef]
    boardRef := s.boardRef
    requestQueue := s.requestQueue ++ [{ snapRef := s.heap.length, timeLimit := 2 }] }

/-- A caller move on the live board after submitting the request
(`self.board.push(move)` in `_on_square_click`): mutate the object behind
`self.board` in place. -/
def push_move (s : AppState) (f : Board → Board) : AppState :=
  { s with heap := writeCell s.heap s.boardRef (f (readCell s.heap s.boardRef)) }

/-- What the evaluation label ends up showing in
`_update_gui_with_analysis`. -/
inductive EvalDisplay
  | notAvailable
  | bareMate
  | mateIn (moves : Int)
  | matedIn (moves : Int)
  | cpEval (centipawns : Int)
deriving DecidableEq, Inhabited, Repr

/-- `_update_gui_with_analysis` (lines 647-680), reduced to the data it
computes: the best-move label text and the evaluation label content.  The
score object is re-oriented with `score_obj.pov(analyzed_turn)` where
`analyzed_turn = result.get("turn", self.board.turn)`, so the stored
snapshot turn wins over the current live board's turn whenever present. -/
def update_gui_with_analysis (result : AnalysisResult) (liveBoardTurn : Side) :
    String × EvalDisplay :=
  let bestMoveText := if result.move = "" then "N/A" else result.move
  match result.score with
  | none => (bestMoveText, EvalDisplay.notAvailable)
  | some scoreObj =>
      let analyzedTurn := result.turn.getD liveBoardTurn
      let povScore := scoreObj.pov analyzedTurn
      if povScore.isMate then
        match povScore.mateMoves with
        | none => (bestMoveText, EvalDisplay.bareMate)
        | some m =>
            if m > 0 then (bestMoveText, EvalDisplay.mateIn m)
            else (bestMoveText, EvalDisplay.matedIn (-m))
      else
        (bestMoveText, EvalDisplay.cpEval (povScore.scoreValue 10000))

/-- A fixed environment in which every connection attempt succeeds and
every analyse exchange returns the default (empty) info dictionary. -/
def envAllOk : Env :=
  { connectOutcome := fun _ _ => ConnectOutcome.ok
    analyseOutcome := fun _ => AnalyseOutcome.ok default }

/-- Claim C1: the engine reference holds at most one child engine process,
and a Connect processed while a handle is live first attempts to quit that
handle and clears the reference before the new launch and handshake: the
whole connect step equals a launch from the cleared state, prefixed by the
quit attempt, and the launch phase itself never emits a quit attempt. -/
theorem claim_C1_single_live_handle (env : Env) (s : WState) (path : String)
    (pid : Nat) (h : s.engine = some pid) :
    s.engine.toList.length ≤ 1 ∧
    handleConnect env s path =
      ((launchEngine env { s with engine := none } path).1,
        Act.quitAttempt pid :: (launchEngine env { s with engine := none } path).2.1,
        (launchEngine env { s with engine := none } path).2.2) ∧
    (∀ q, Act.quitAttempt q ∉ (launchEngine env { s with engine := none } path).2.1) := by
  refine ⟨?_, ?_, ?_⟩
  · rw [h]; simp
  · simp [handleConnect, quitExisting, h]
  · intro q
    unfold launchEngine
    cases env.connectOutcome { s with engine := none }.nextPid path <;> simp

/-- Witness for C1 at a concrete state with handle 7 live. -/
theorem claim_C1_witness :
    (handleConnect envAllOk { engine := some 7, nextPid := 8, anaCount := 0 } "sf").2.1 =
      [Act.quitAttempt 7, Act.spawn 8] := by
  have h := claim_C1_single_live_handle envAllOk
    { engine := some 7, nextPid := 8, anaCount := 0 } "sf" 7 rfl
  rw [h.2.1]
  rfl

/-- Claim C4: an Analyze processed with no live handle immediately yields
the not-connected error, produces no process action, leaves the state
unchanged, and the worker goes on to process the remaining requests. -/
theorem claim_C4_analyze_without_handle (env : Env) (s : WState) (snap : Board)
    (t : Rat) (rest : List Req) (h : s.engine = none) :
    handleAnalyze env s snap t = (s, [], Res.error "Engine is not connected.") ∧
    run env s (Req.analyze snap t :: rest) =
      ((run env s rest).1, (run env s rest).2.1,
        Res.error "Engine is not connected." :: (run env s rest).2.2) := by
  constructor
  · simp [handleAnalyze, h]
  · simp [run, handleAnalyze, h]

/-- Witness for C4: analyzing while disconnected, then quitting. -/
theorem claim_C4_witness :
    run envAllOk { engine := none, nextPid := 0, anaCount := 0 }
        [Req.analyze default 2, Req.quit] =
      ({ engine := none, nextPid := 0, anaCount := 0 }, [],
        [Res.error "Engine is not connected."]) := by
  have h := claim_C4_analyze_without_handle envAllOk
    { engine := none, nextPid := 0, anaCount := 0 } default 2 [Req.quit] rfl
  rw [h.2]
  rfl

/-- Claim C8: a quit request stops the worker regardless of what follows
(the loop breaks, so no later request is accepted), performs nothing and
reports nothing when no engine was ever connected, and performs only a
best-effort quit attempt (exceptions discarded) when a handle is live;
running the quit twice is the same as running it once. -/
theorem claim_C8_shutdown_idempotent (env : Env) (s : WState) (rest : List Req) :
    run env s (Req.quit :: rest) = run env s [Req.quit] ∧
    (s.engine = none → run env s [Req.quit] = (s, [], [])) ∧
    (∀ pid, s.engine = some pid →
      run env s [Req.quit] = (s, [Act.quitAttempt pid], [])) := by
  refine ⟨rfl, ?_, ?_⟩
  · intro h; simp [run, h]
  · intro pid h; simp [run, h]

/-- Witness for C8: double shutdown with no engine ever connected. -/
theorem claim_C8_witness :
    run envAllOk { engine := none, nextPid := 0, anaCount := 0 }
        [Req.quit, Req.quit] =
      ({ engine := none, nextPid := 0, anaCount := 0 }, [], []) := by
  have h := claim_C8_shutdown_idempotent envAllOk
    { engine := none, nextPid := 0, anaCount := 0 } [Req.quit]
  rw [h.1, h.2.1 rfl]

/-- Claim C9: when the info dictionary carries no principal variation (the
key is missing or the line is empty), the result carries the "N/A"
sentinel as its move — nothing indexes into the empty line. -/
theorem claim_C9_empty_pv_sentinel (env : Env) (s : WState) (pid : Nat)
    (snap : Board) (t : Rat) (info : AnalysisInfo)
    (hEng : s.engine = some pid)
    (hOut : env.analyseOutcome s.anaCount = AnalyseOutcome.ok info)
    (hPv : info.pv = none ∨ info.pv = some []) :
    (handleAnalyze env s snap t).2.2 =
      Res.analysis_result
        { move := "N/A", score := info.score, turn := some snap.turn } := by
  rcases hPv with h | h <;>
    simp [handleAnalyze, hEng, hOut, extractResult, h]

/-- Witness for C9: a checkmated position reported with an empty pv. -/
theorem claim_C9_witness :
    (handleAnalyze envAllOk { engine := some 0, nextPid := 1, anaCount := 0 }
        default 2).2.2 =
      Res.analysis_result { move := "N/A", score := none, turn := some Side.white } :=
  claim_C9_empty_pv_sentinel envAllOk
    { engine := some 0, nextPid := 1, anaCount := 0 } 0 default 2 default
    rfl rfl (Or.inl rfl)

/-- Claim C10: the caller-facing entry point always enqueues a time budget
of exactly 2 seconds (it exposes no parameter to change it), while the
worker itself passes through whatever time limit a request carries. -/
theorem claim_C10_fixed_time_budget :
    (∀ s : AppState, (start_analysis s).requestQueue =
        s.requestQueue ++ [{ snapRef := s.heap.length, timeLimit := 2 }]) ∧
    (∀ (env : Env) (s : WState) (pid : Nat) (snap : Board) (t : Rat),
        s.engine = some pid →
        (handleAnalyze env s snap t).2.1 = [Act.analyseCall pid snap t]) := by
  constructor
  · intro s; rfl
  · intro env s pid snap t h
    cases hO : env.analyseOutcome s.anaCount <;> simp [handleAnalyze, h, hO]

/-- Witness for C10: the worker accepts an arbitrary time limit (here 5)
even though the GUI only ever enqueues 2. -/
theorem claim_C10_witness :
    (handleAnalyze envAllOk { engine := some 0, nextPid := 1, anaCount := 0 }
        default 5).2.1 = [Act.analyseCall 0 default 5] :=
  claim_C10_fixed_time_budget.2 envAllOk
    { engine := some 0, nextPid := 1, anaCount := 0 } 0 default 5 rfl

/-- The worker state at program start: no engine, fresh counters. -/
def wInit : WState :=
  { engine := none, nextPid := 0, anaCount := 0 }

/-- Running the worker over a quit-free batch followed by anything is the
batch run followed by the run of the remainder from the reached state:
requests are consumed one at a time in submission order and every step
appends its actions and its single result. -/
theorem run_append_no_quit (env : Env) (s : WState) (l₁ l₂ : List Req)
    (h : Req.quit ∉ l₁) :
    run env s (l₁ ++ l₂) =
      ((run env (run env s l₁).1 l₂).1,
       (run env s l₁).2.1 ++ (run env (run env s l₁).1 l₂).2.1,
       (run env s l₁).2.2 ++ (run env (run env s l₁).1 l₂).2.2) := by
  induction l₁ generalizing s with
  | nil => simp [run]
  | cons r tl ih =>
      have htl : Req.quit ∉ tl := fun m => h (List.mem_cons_of_mem _ m)
      cases r with
      | quit => exact absurd (List.mem_cons_self _ _) h
      | connect path =>
          simp only [List.cons_append, run, List.append_eq, ih _ htl,
            List.append_assoc]
      | analyze snap t =>
          simp only [List.cons_append, run, List.append_eq, ih _ htl,
            List.append_assoc]

/-- Over a quit-free batch, the worker emits exactly one result per
request. -/
theorem run_length_no_quit (env : Env) (s : WState) (l : List Req)
    (h : Req.quit ∉ l) :
    (run env s l).2.2.length = l.length := by
  induction l generalizing s with
  | nil => simp [run]
  | cons r tl ih =>
      have htl : Req.quit ∉ tl := fun m => h (List.mem_cons_of_mem _ m)
      cases r with
      | quit => exact absurd (List.mem_cons_self _ _) h
      | connect path => simp [run, ih _ htl]
      | analyze snap t => simp [run, ih _ htl]

/-- Claim C2: the single worker consumes requests strictly in submission
order and every accepted (non-quit) request yields exactly one result, the
results appearing in the order their requests were processed: result lists
compose along any quit-free prefix and their length matches the prefix. -/
theorem claim_C2_ordered_results (env : Env) (s : WState)
    (batch tail : List Req) (h : Req.quit ∉ batch) :
    (run env s (batch ++ tail)).2.2 =
      (run env s batch).2.2 ++ (run env (run env s batch).1 tail).2.2 ∧
    (run env s batch).2.2.length = batch.length := by
  exact ⟨by rw [run_append_no_quit env s batch tail h],
    run_length_no_quit env s batch h⟩

/-- Witness for C2: a connect then an analyze, followed by a quit. -/
theorem claim_C2_witness :
    (run envAllOk wInit
        ([Req.connect "sf", Req.analyze default 2] ++ [Req.quit])).2.2 =
      (run envAllOk wInit [Req.connect "sf", Req.analyze default 2]).2.2 ++
        (run envAllOk
          (run envAllOk wInit [Req.connect "sf", Req.analyze default 2]).1
          [Req.quit]).2.2 ∧
    (run envAllOk wInit [Req.connect "sf", Req.analyze default 2]).2.2.length = 2 :=
  claim_C2_ordered_results envAllOk wInit
    [Req.connect "sf", Req.analyze default 2] [Req.quit] (by decide)

/-- A file system on which nothing exists and nothing resolves. -/
def fsEmpty : FileSystem :=
  { isFile := fun _ => false
    isExecutable := fun _ => false
    which := fun _ => none
    abspath := id }

/-- An environment in which every launch raises before a process exists. -/
def envSpawnFails : Env :=
  { connectOutcome := fun _ _ => ConnectOutcome.failBeforeSpawn "no such file"
    analyseOutcome := fun _ => AnalyseOutcome.err "no engine" }

/-- Claim C3: an executable path that is not an executable file and does
not resolve to one on the search path makes `_resolve_engine_path` return
nothing, so the connect click shows the error dialog and enqueues no
request (nothing is launched, the session is untouched); and when a launch
or handshake attempted from a disconnected session raises, the worker
reports `connect_fail` with the string cause and leaves the handle clear —
with no process created in the launch-failure case. -/
theorem claim_C3_invalid_executable (fs : FileSystem) (u : String) (env : Env)
    (s : WState) (path msg : String)
    (hFile : fs.isFile u.trim = false ∨ fs.isExecutable u.trim = false)
    (hWhich : ∀ r, fs.which u.trim = some r →
      fs.isFile r = false ∨ fs.isExecutable r = false) :
    resolve_engine_path fs u.trim = none ∧
    connect_to_stockfish fs u =
      ConnectClick.errorDialog "Invalid Stockfish executable." ∧
    (s.engine = none →
      env.connectOutcome s.nextPid path = ConnectOutcome.failBeforeSpawn msg →
      handleConnect env s path =
        ({ engine := none, nextPid := s.nextPid + 1, anaCount := s.anaCount },
          [], Res.connect_fail msg)) ∧
    (s.engine = none →
      env.connectOutcome s.nextPid path = ConnectOutcome.failAfterSpawn msg →
      handleConnect env s path =
        ({ engine := none, nextPid := s.nextPid + 1, anaCount := s.anaCount },
          [Act.spawn s.nextPid], Res.connect_fail msg)) := by
  have hres : resolve_engine_path fs u.trim = none := by
    unfold resolve_engine_path
    by_cases hv : u.trim = ""
    · simp [hv]
    · rw [if_neg hv]
      by_cases hf : fs.isFile u.trim = true
      · have hx : fs.isExecutable u.trim = false := by
          rcases hFile with h1 | h1
          · rw [hf] at h1; cases h1
          · exact h1
        simp [hf, hx]
      · simp only [hf, if_false]
        cases hw : fs.which u.trim with
        | none => rfl
        | some r =>
            rcases hWhich r hw with h1 | h1 <;> simp [h1]
  refine ⟨hres, ?_, ?_, ?_⟩
  · unfold connect_to_stockfish
    rw [hres]
  · intro h1 h2
    simp [handleConnect, quitExisting, launchEngine, h1, h2]
  · intro h1 h2
    simp [handleConnect, quitExisting, launchEngine, h1, h2]

/-- Witness for C3: a path that exists nowhere, with trailing whitespace in
the entry field, and a launch that raises. -/
theorem claim_C3_witness :
    resolve_engine_path fsEmpty " /bad/engine ".trim = none ∧
    connect_to_stockfish fsEmpty " /bad/engine " =
      ConnectClick.errorDialog "Invalid Stockfish executable." ∧
    handleConnect envSpawnFails wInit "/bad/engine" =
      ({ engine := none, nextPid := 1, anaCount := 0 },
        [], Res.connect_fail "no such file") := by
  have h := claim_C3_invalid_executable fsEmpty " /bad/engine " envSpawnFails
    wInit "/bad/engine" "no such file" (Or.inl rfl) (fun r hr => nomatch hr)
  exact ⟨h.1, h.2.1, h.2.2.1 rfl rfl⟩

/-- Claim C5: the evaluation shown for a completed analysis is the score
from the point of view of the side to move in the analyzed snapshot, for
any state of the live board: the worker stores the snapshot's turn in the
result, and re-orienting the engine's snapshot-relative score with it is
the identity — a positive mate distance displays as the analyzed side
mating, a negative one as it being mated, and a centipawn score displays
unchanged from the analyzed side's point of view. -/
theorem claim_C5_score_perspective (env : Env) (s : WState) (pid : Nat)
    (snap : Board) (t : Rat) (info : AnalysisInfo) (sc : PovScore)
    (liveTurn : Side)
    (hEng : s.engine = some pid)
    (hOut : env.analyseOutcome s.anaCount = AnalyseOutcome.ok info)
    (hSc : info.score = some sc)
    (hTurn : sc.turn = snap.turn) :
    (handleAnalyze env s snap t).2.2 =
      Res.analysis_result (extractResult info snap) ∧
    (update_gui_with_analysis (extractResult info snap) liveTurn).2 =
      (match sc.relative with
       | RelScore.mate m =>
           if m > 0 then EvalDisplay.mateIn m else EvalDisplay.matedIn (-m)
       | RelScore.cp c => EvalDisplay.cpEval c) := by
  constructor
  · simp [handleAnalyze, hEng, hOut]
  · have hpov : sc.pov snap.turn = sc.relative := by
      simp [PovScore.pov, hTurn]
    unfold update_gui_with_analysis extractResult
    cases hrel : sc.relative with
    | cp c =>
        simp [hSc, hpov, hrel, RelScore.isMate, RelScore.scoreValue]
    | mate m =>
        by_cases hm : m > 0 <;>
          simp [hSc, hpov, hrel, RelScore.isMate, RelScore.mateMoves, hm]

/-- An environment whose analyse exchange reports mate in 3 for the side to
move, with principal variation d8h4. -/
def envMateInfo : Env :=
  { connectOutcome := fun _ _ => ConnectOutcome.ok
    analyseOutcome := fun _ => AnalyseOutcome.ok
      { pv := some [{ uci := "d8h4" }]
        score := some { relative := RelScore.mate 3, turn := Side.black } } }

/-- Witness for C5: the engine reports mate in 3 for Black to move in the
snapshot while the live board has already moved on to White to move; the
display still shows the analyzed side (Black) mating in 3. -/
theorem claim_C5_witness :
    (update_gui_with_analysis
        (extractResult
          { pv := some [{ uci := "d8h4" }]
            score := some { relative := RelScore.mate 3, turn := Side.black } }
          { placement := "mating-net", turn := Side.black })
        Side.white).2 = EvalDisplay.mateIn 3 := by
  have h := claim_C5_score_perspective envMateInfo
    { engine := some 0, nextPid := 1, anaCount := 0 } 0
    { placement := "mating-net", turn := Side.black } 2
    { pv := some [{ uci := "d8h4" }]
      score := some { relative := RelScore.mate 3, turn := Side.black } }
    { relative := RelScore.mate 3, turn := Side.black }
    Side.white rfl rfl rfl rfl
  exact h.2

/-- An environment in which connecting succeeds and every analyse exchange
raises because the engine process has died. -/
def envProcessDied : Env :=
  { connectOutcome := fun _ _ => ConnectOutcome.ok
    analyseOutcome := fun _ => AnalyseOutcome.err "engine process died" }

/-- Counterexample to claim C6 as stated: connect successfully, then have
the analyse exchange fail because the engine process died.  The worker
reports the failure, but the engine reference is still set to the dead
process afterwards — the code performs no liveness verification and does
not transition to Disconnected. -/
theorem claim_C6_counterexample :
    (run envProcessDied wInit [Req.connect "sf", Req.analyze default 2]).1.engine
        = some 0 ∧
    (run envProcessDied wInit [Req.connect "sf", Req.analyze default 2]).2.2 =
      [Res.connect_success, Res.error "Analysis failed: engine process died"] := by
  constructor <;> rfl

/-- Claim C6 as amended: any error during an analysis exchange is reported
as an error result with a message, the worker loop is not terminated (it
continues with the remaining requests), and the engine handle is left
exactly as it was — the code performs no liveness check and never
transitions to Disconnected on analysis failure. -/
theorem claim_C6_analysis_failure_recoverable (env : Env) (s : WState)
    (pid : Nat) (snap : Board) (t : Rat) (msg : String) (rest : List Req)
    (hEng : s.engine = some pid)
    (hOut : env.analyseOutcome s.anaCount = AnalyseOutcome.err msg) :
    (handleAnalyze env s snap t).2.2 = Res.error ("Analysis failed: " ++ msg) ∧
    (handleAnalyze env s snap t).1.engine = some pid ∧
    (run env s (Req.analyze snap t :: rest)).2.2 =
      Res.error ("Analysis failed: " ++ msg) ::
        (run env (handleAnalyze env s snap t).1 rest).2.2 := by
  refine ⟨?_, ?_, ?_⟩ <;> simp [run, handleAnalyze, hEng, hOut]

/-- Witness for the amended C6: the failed analysis is followed by a
further request that is still served. -/
theorem claim_C6_witness :
    (handleAnalyze envProcessDied { engine := some 0, nextPid := 1, anaCount := 0 }
        default 2).2.2 = Res.error "Analysis failed: engine process died" ∧
    (handleAnalyze envProcessDied { engine := some 0, nextPid := 1, anaCount := 0 }
        default 2).1.engine = some 0 := by
  have h := claim_C6_analysis_failure_recoverable envProcessDied
    { engine := some 0, nextPid := 1, anaCount := 0 } 0 default 2
    "engine process died" [] rfl rfl
  exact ⟨h.1, h.2.1⟩

/-- Reading the cell appended at the end of a heap returns exactly the
appended value. -/
theorem readCell_append_length (l : List Board) (c : Board) :
    readCell (l ++ [c]) l.length = c := by
  induction l with
  | nil => rfl
  | cons a tl ih => simp [readCell]

/-- An in-place write to any older cell leaves the freshly appended cell
untouched. -/
theorem readCell_write_older (l : List Board) (c b : Board) (i : Nat)
    (h : i < l.length) :
    readCell (writeCell (l ++ [c]) i b) l.length = c := by
  induction l generalizing i with
  | nil => exact absurd h (Nat.not_lt_zero i)
  | cons a tl ih =>
      cases i with
      | zero =>
          simp [readCell, writeCell]
      | succ j =>
          have hj : j < tl.length := Nat.lt_of_succ_lt_succ h
          simp [readCell, writeCell, hj, Nat.ne_of_gt hj]

/-- Claim C7: submitting an analysis enqueues a reference to a freshly
allocated copy of the live board, frozen at its current value; a mutation
of the live board performed afterwards (any in-place update of the object
behind `self.board`) leaves the snapshot cell holding the original value. -/
theorem claim_C7_snapshot_frozen (s : AppState) (f : Board → Board)
    (h : s.boardRef < s.heap.length) :
    (start_analysis s).requestQueue =
      s.requestQueue ++ [{ snapRef := s.heap.length, timeLimit := 2 }] ∧
    readCell (start_analysis s).heap s.heap.length = readCell s.heap s.boardRef ∧
    readCell (push_move (start_analysis s) f).heap s.heap.length =
      readCell s.heap s.boardRef := by
  refine ⟨rfl, readCell_append_length _ _, ?_⟩
  simp only [push_move, start_analysis]
  exact readCell_write_older s.heap _ _ s.boardRef h

/-- Witness for C7: a one-cell heap whose live board is overwritten after
the snapshot is taken; the snapshot still reads back the original value. -/
theorem claim_C7_witness :
    readCell
      (push_move
        (start_analysis
          { heap := [{ placement := "start", turn := Side.white }]
            boardRef := 0
            requestQueue := [] })
        (fun _ => { placement := "after-e4", turn := Side.black })).heap 1 =
      { placement := "start", turn := Side.white } := by
  have h := claim_C7_snapshot_frozen
    { heap := [{ placement := "start", turn := Side.white }]
      boardRef := 0
      requestQueue := [] }
    (fun _ => { placement := "after-e4", turn := Side.black }) (by decide)
  exact h.2.2

end ChessAnalyzer
